import Mathlib

/-!
Shallow embedding of the cat-gps telemetry pipeline (src/main.py, src/tsdb.py)
and proofs about its behaviour.

Conventions of the embedding:
* A decoded JSON payload is a `Json` value; a payload whose bytes fail UTF-8
  decoding or JSON parsing is represented as `none` (in the source both
  failures are caught by the same `try/except` and the handler returns).
* Python exceptions that are NOT caught by the handler are modelled with
  `Except`: `.error e` means the handler raises `e`.
* The `ws_clients` Python set is modelled as a duplicate-free `List` of opaque
  viewer handles; `list(ws_clients)` is the list itself, `set.add` and
  `set.discard` are `pySetAdd` / `pySetDiscard`.
* The `asyncio.Queue` dispatcher is FIFO; a run of the broadcast loop over the
  queue's contents is a structural recursion over the list of queued items in
  enqueue order.
* The observable actions of the fan-out loop (sends, removals, cache writes,
  sink writes) are reified as a trace of `LoopEffect`s so that both presence
  and absence of an action can be stated.
-/

namespace CatGps

/-- A JSON value, as produced by Python's `json.loads`. -/
inductive Json where
  | null : Json
  | bool (b : Bool) : Json
  | num (q : ℚ) : Json
  | str (s : String) : Json
  | arr (elems : List Json) : Json
  | obj (fields : List (String × Json)) : Json

/-- The dict built by `on_mqtt_message` (src/main.py lines 48-53) and put on
`position_queue`.  `x` and `y` are stored exactly as found in the payload
(the source performs no numeric check on them). -/
structure OutData where
  device_id : String
  device_name : String
  x : Json
  y : Json

/-- An uncaught Python exception escaping `on_mqtt_message`.  `attributeError`
models `payload.get(...)` when `json.loads` returned a non-dict value. -/
inductive PyErr where
  | attributeError : PyErr

/-- Helper for `pySplit`: walk the characters, cutting at each separator.
`acc` holds the characters of the current segment, reversed. -/
def splitAux (sep : Char) : List Char → List Char → List String
  | [], acc => [String.mk acc.reverse]
  | c :: rest, acc =>
    if c = sep then String.mk acc.reverse :: splitAux sep rest []
    else splitAux sep rest (c :: acc)

/-- Python's `str.split(sep)` for a one-character separator: every occurrence
of `sep` cuts, empty segments are kept, and the empty string splits to
`[""]`. -/
def pySplit (s : String) (sep : Char) : List String := splitAux sep s.toList []

/-- Lookup in a Python dict materialised from a key/value list; on duplicate
keys the later binding wins, as in a Python dict literal / `json.loads`. -/
def pyDictGet (fields : List (String × Json)) (k : String) : Option Json :=
  fields.foldl (fun acc f => if f.1 = k then some f.2 else acc) none

/-- Models `payload.get(k)` on a dict decoded from JSON: a JSON `null` value
decodes to Python `None`, so `payload.get(k) is None` holds both when the key
is absent and when its value is JSON null. -/
def pyGetAttr (fields : List (String × Json)) (k : String) : Option Json :=
  match pyDictGet fields k with
  | some Json.null => none
  | r => r

/-- `device_by_id` (src/main.py line 13) as an id → name table; built from a
Python dict comprehension, so the later binding wins on duplicate ids. -/
def lookupDevice (reg : List (String × String)) (id : String) : Option String :=
  reg.foldl (fun acc d => if d.1 = id then some d.2 else acc) none

/-- The decode part of `on_mqtt_message` (src/main.py lines 27-53): parse the
payload, read `x`/`y`, split the topic, look the device up in the registry,
and build the outbound dict.  `.ok none` = the handler returned without a
sample, `.ok (some d)` = it built the dict `d`, `.error _` = it raised. -/
def decodeSample (reg : List (String × String)) (topic : String)
    (payload : Option Json) : Except PyErr (Option OutData) :=
  match payload with
  | none => Except.ok none
  | some (Json.obj fields) =>
    match pyGetAttr fields "x", pyGetAttr fields "y" with
    | some xv, some yv =>
      let parts := pySplit topic '/'
      if parts.length < 4 then Except.ok none
      else
        let device_id := parts.getD 2 ""
        match lookupDevice reg device_id with
        | none => Except.ok none
        | some name => Except.ok (some ⟨device_id, name, xv, yv⟩)
    | _, _ => Except.ok none
  | some _ => Except.error PyErr.attributeError

/-- `on_mqtt_message` (src/main.py lines 27-56): decode, then enqueue the dict
on `position_queue` only when `mqtt_loop` has already been captured
(`loopSet`).  The result's `Option OutData` is the item placed on the
dispatcher queue, if any. -/
def on_mqtt_message (reg : List (String × String)) (topic : String)
    (payload : Option Json) (loopSet : Bool) : Except PyErr (Option OutData) :=
  match decodeSample reg topic payload with
  | Except.error e => Except.error e
  | Except.ok none => Except.ok none
  | Except.ok (some d) => if loopSet then Except.ok (some d) else Except.ok none

/-- The item the handler actually placed on the dispatcher queue: nothing when
it returned without a sample and nothing when it raised. -/
def enqueues : Except PyErr (Option OutData) → Option OutData
  | Except.ok r => r
  | Except.error _ => none

/-- An opaque websocket viewer handle (an element of `ws_clients`). -/
abbrev Viewer := Nat

/-- Python `set.add` on the list model of `ws_clients`: no duplicate is ever
introduced. -/
def pySetAdd (s : List Viewer) (v : Viewer) : List Viewer :=
  if v ∈ s then s else s ++ [v]

/-- Python `set.discard` on the list model of `ws_clients`: removes `v` if
present, does nothing otherwise. -/
def pySetDiscard (s : List Viewer) (v : Viewer) : List Viewer :=
  s.filter (fun w => !(w == v))

/-- One observable action of the broadcast fan-out loop.  `send`/`sendFailed`
record the delivery attempt to one viewer and its outcome, `removeViewer`
records the post-pass `ws_clients.discard`.  `cacheWrite` and `sinkWrite` are
the actions the spec's fan-out loop would additionally perform (last-position
cache overwrite, `Sink.write_position`); they are part of the observation
vocabulary so that their absence from the code's trace can be stated —
`broadcast_positions` in src/main.py (lines 59-71) never emits either. -/
inductive LoopEffect where
  | send (v : Viewer) (d : OutData) : LoopEffect
  | sendFailed (v : Viewer) (d : OutData) : LoopEffect
  | removeViewer (v : Viewer) : LoopEffect
  | cacheWrite (device_id : String) (d : OutData) : LoopEffect
  | sinkWrite (d : OutData) : LoopEffect

/-- The `for ws in list(ws_clients)` loop of `broadcast_positions`
(src/main.py lines 64-68): attempt `send_json` on every viewer of the
snapshot in order; an exception is caught on the spot, appends the viewer to
`dead_clients`, and the loop continues with the next viewer.  `fails v d`
says whether `ws.send_json(data)` raises for viewer `v` and payload `d`.
Returns the effect trace of the pass and `dead_clients` in append order. -/
def sendPass (fails : Viewer → OutData → Bool) (d : OutData) :
    List Viewer → List LoopEffect × List Viewer
  | [] => ([], [])
  | v :: rest =>
    let r := sendPass fails d rest
    if fails v d then (LoopEffect.sendFailed v d :: r.1, v :: r.2)
    else (LoopEffect.send v d :: r.1, r.2)

/-- One iteration of the `while True` body of `broadcast_positions`
(src/main.py lines 61-71) on a dequeued item `d`: run the delivery pass over
the snapshot of `ws_clients`, then discard every dead client.  Returns the
effect trace and the new `ws_clients`. -/
def broadcastStep (fails : Viewer → OutData → Bool) (viewers : List Viewer)
    (d : OutData) : List LoopEffect × List Viewer :=
  let r := sendPass fails d viewers
  (r.1 ++ r.2.map LoopEffect.removeViewer, r.2.foldl pySetDiscard viewers)

/-- A run of `broadcast_positions` (src/main.py lines 59-71) over the queued
items in enqueue (FIFO) order, starting from viewer set `viewers`.  Returns
the concatenated effect trace and the final viewer set. -/
def broadcast_positions (fails : Viewer → OutData → Bool) :
    List Viewer → List OutData → List LoopEffect × List Viewer
  | viewers, [] => ([], viewers)
  | viewers, d :: rest =>
    let step := broadcastStep fails viewers d
    let next := broadcast_positions fails step.2 rest
    (step.1 ++ next.1, next.2)

/-- The sequence of payloads successfully delivered to viewer `v` in a trace,
in delivery order. -/
def receivedBy (v : Viewer) (log : List LoopEffect) : List OutData :=
  log.filterMap (fun e =>
    match e with
    | LoopEffect.send w d => if w == v then some d else none
    | _ => none)

/-- The viewers to whom a delivery was attempted (successfully or not) in a
trace, in attempt order. -/
def attempts (log : List LoopEffect) : List Viewer :=
  log.filterMap (fun e =>
    match e with
    | LoopEffect.send w _ => some w
    | LoopEffect.sendFailed w _ => some w
    | _ => none)

/-- One observable action of the `ws_positions` websocket handler. -/
inductive WsEffect where
  | accept : WsEffect
  | replay (d : OutData) : WsEffect
  | addViewer (v : Viewer) : WsEffect
  | removeViewer (v : Viewer) : WsEffect

/-- The connection phase of `ws_positions` (src/main.py lines 107-110): the
code up to entering the receive loop.  It accepts the socket and adds the
viewer to `ws_clients`; it sends nothing to the viewer before (or after)
inserting it.  Returns the effect trace and the new `ws_clients`. -/
def ws_positions_connect (viewers : List Viewer) (v : Viewer) :
    List WsEffect × List Viewer :=
  ([WsEffect.accept, WsEffect.addViewer v], pySetAdd viewers v)

/-- Python's `str.lower()` (ASCII case folding, which is all the source
compares against). -/
def pyLower (s : String) : String := String.mk (s.toList.map Char.toLower)

/-- Python's `str.strip()` as applied by `int()`: leading and trailing
whitespace is ignored. -/
def pyStripChars (cs : List Char) : List Char :=
  ((cs.dropWhile Char.isWhitespace).reverse.dropWhile Char.isWhitespace).reverse

/-- The digit characters of a candidate integer literal, ignoring the
underscore group separators Python permits. -/
def digitsValue (cs : List Char) : Nat :=
  cs.foldl (fun a c => if c.isDigit then a * 10 + (c.toNat - 48) else a) 0

/-- No two adjacent underscores (Python allows `1_000` but not `1__000`). -/
def noDoubleUnderscore : List Char → Bool
  | [] => true
  | [_] => true
  | a :: b :: rest => !(a = '_' && b = '_') && noDoubleUnderscore (b :: rest)

/-- A digit body is valid for Python's `int()` when it is nonempty, starts and
ends with a digit, contains only digits and underscores, and never has two
adjacent underscores. -/
def validDigitBody (cs : List Char) : Bool :=
  !cs.isEmpty && (cs.headD '_').isDigit && (cs.getLastD '_').isDigit &&
    cs.all (fun c => c.isDigit || c = '_') && noDoubleUnderscore cs

/-- Python's `int(s)` on a string: strip whitespace, allow one leading sign,
then require a valid underscore-grouped digit body; `none` models the
`ValueError` raised on anything else. -/
def pyParseInt (s : String) : Option Int :=
  let t := pyStripChars s.toList
  let signBody : Int × List Char :=
    match t with
    | '-' :: rest => (-1, rest)
    | '+' :: rest => (1, rest)
    | _ => (1, t)
  if validDigitBody signBody.2 then some (signBody.1 * digitsValue signBody.2)
  else none

/-- An environment, as read by `os.getenv` / `os.environ`: a finite table of
variable bindings (first binding wins; a real environment has unique keys). -/
def envGet (env : List (String × String)) (k : String) : Option String :=
  match env.find? (fun p => p.1 == k) with
  | some p => some p.2
  | none => none

/-- The time-series backend variants of src/tsdb.py: `NoopTimeSeriesDB` and
`InfluxTimeSeriesDB` (the latter carrying its constructor arguments). -/
inductive TSDB where
  | noop : TSDB
  | influx (host : String) (port : Int) (database : String)
      (token : Option String) : TSDB

/-- The backend selector `os.getenv("TSDB_TYPE", "").lower()`
(src/tsdb.py line 156). -/
def tsdbSelector (env : List (String × String)) : String :=
  pyLower ((envGet env "TSDB_TYPE").getD "")

/-- `create_tsdb_from_env` (src/tsdb.py lines 155-167).  When the selector is
`"influx"`: `os.environ["TSDB_HOST"]` (KeyError when absent), then
`int(os.environ.get("TSDB_PORT", "8181"))` (ValueError when the string is not
an integer literal), then `os.environ["TSDB_DATABASE"]` (KeyError when
absent), then the optional token; any other selector value falls through to
`NoopTimeSeriesDB`.  `.error` models the uncaught exception. -/
def create_tsdb_from_env (env : List (String × String)) : Except String TSDB :=
  if tsdbSelector env = "influx" then
    match envGet env "TSDB_HOST" with
    | none => Except.error "KeyError: TSDB_HOST"
    | some host =>
      match pyParseInt ((envGet env "TSDB_PORT").getD "8181") with
      | none => Except.error "ValueError: invalid literal for int()"
      | some port =>
        match envGet env "TSDB_DATABASE" with
        | none => Except.error "KeyError: TSDB_DATABASE"
        | some database =>
          Except.ok (TSDB.influx host port database (envGet env "TSDB_TOKEN"))
  else Except.ok TSDB.noop

/-- Construction failed (an exception escaped `create_tsdb_from_env`). -/
def isErr {ε α : Type} : Except ε α → Bool
  | Except.error _ => true
  | Except.ok _ => false

/-- One heatmap grid cell (src/tsdb.py lines 24-28). -/
structure HeatmapBin where
  grid_x : Int
  grid_y : Int
  count : Nat

/-- `NoopTimeSeriesDB.query_heatmap` (src/tsdb.py lines 62-70): every query
returns the empty list, whatever the arguments. -/
def noopQueryHeatmap (hours : Nat) (cell_size : ℚ) (device_id : Option String)
    (start_time end_time : Option ℚ) : List HeatmapBin := []

/-- The JSON body of the heatmap HTTP endpoint's response. -/
structure HeatmapResponse where
  bins : List HeatmapBin
  cell_size : ℚ

/-- Modelled from the spec: the `/api/heatmap` endpoint itself is not in
src/main.py (only its test, src/test_main.py lines 76-79, and its backend,
src/tsdb.py, are under src/).  Per spec §4.6, §6 and §7, the endpoint asks
the configured Sink for bins and answers `{bins, cell_size}`, degrading to
empty bins instead of an error when no backend is configured (the test
exercises this with the backend handle absent).  `influx_bins` stands for
whatever an external Influx backend would return. -/
def heatmap_endpoint (tsdb : Option TSDB) (influx_bins : List HeatmapBin)
    (cell_size : ℚ) : HeatmapResponse :=
  { bins :=
      match tsdb with
      | none => []
      | some TSDB.noop => noopQueryHeatmap 24 cell_size none none none
      | some (TSDB.influx _ _ _ _) => influx_bins
    cell_size := cell_size }

/-- Is this loop effect a write to a last-position cache? -/
def isCacheWriteEff : LoopEffect → Bool
  | LoopEffect.cacheWrite _ _ => true
  | _ => false

/-- Is this loop effect a persistence-sink write? -/
def isSinkWriteEff : LoopEffect → Bool
  | LoopEffect.sinkWrite _ => true
  | _ => false

/-- Is this websocket-handler effect a replay message to the viewer? -/
def isReplayEff : WsEffect → Bool
  | WsEffect.replay _ => true
  | _ => false

/-- The rejection conditions of claim C5, in the code's terms: payload failed
to parse or decode, or the decoded object lacks `x` or `y` (absent or JSON
null), or the topic has fewer than 4 `/`-separated segments, or the device id
at topic segment 2 is not in the registry. -/
def rejectable (reg : List (String × String)) (topic : String)
    (payload : Option Json) : Prop :=
  payload = none
  ∨ (∃ fields, payload = some (Json.obj fields) ∧
      (pyGetAttr fields "x" = none ∨ pyGetAttr fields "y" = none))
  ∨ (pySplit topic '/').length < 4
  ∨ lookupDevice reg ((pySplit topic '/').getD 2 "") = none

/-! ## Helper lemmas about the fan-out pass -/

theorem sendPass_dead (fails : Viewer → OutData → Bool) (d : OutData)
    (vs : List Viewer) :
    (sendPass fails d vs).2 = vs.filter (fun v => fails v d) := by
  induction vs with
  | nil => rfl
  | cons v rest ih =>
    simp only [sendPass, List.filter_cons]
    by_cases h : fails v d = true
    · simp [h, ih]
    · simp only [Bool.not_eq_true] at h
      simp [h, ih]

theorem foldl_pySetDiscard (ds : List Viewer) (s : List Viewer) :
    ds.foldl pySetDiscard s = s.filter (fun v => !(ds.contains v)) := by
  induction ds generalizing s with
  | nil => simp [List.contains]
  | cons a ds ih =>
    simp only [List.foldl_cons, ih, pySetDiscard, List.filter_filter]
    apply List.filter_congr
    intro v _
    simp only [List.contains_cons, Bool.not_or, Bool.and_comm]

theorem broadcastStep_viewers (fails : Viewer → OutData → Bool)
    (viewers : List Viewer) (d : OutData) :
    (broadcastStep fails viewers d).2 =
      viewers.filter (fun v => !(fails v d)) := by
  simp only [broadcastStep, sendPass_dead, foldl_pySetDiscard]
  apply List.filter_congr
  intro v hv
  by_cases h : fails v d = true
  · simp [h, List.elem_iff, List.mem_filter, hv]
  · simp only [Bool.not_eq_true] at h
    simp [h, List.elem_iff, List.mem_filter]

theorem attempts_cons (e : LoopEffect) (log : List LoopEffect) :
    attempts (e :: log) =
      (match e with
       | LoopEffect.send w _ => [w]
       | LoopEffect.sendFailed w _ => [w]
       | _ => []) ++ attempts log := by
  cases e <;> simp [attempts, List.filterMap_cons]

theorem attempts_append (l1 l2 : List LoopEffect) :
    attempts (l1 ++ l2) = attempts l1 ++ attempts l2 := by
  simp [attempts, List.filterMap_append]

theorem attempts_sendPass (fails : Viewer → OutData → Bool) (d : OutData)
    (vs : List Viewer) : attempts (sendPass fails d vs).1 = vs := by
  induction vs with
  | nil => rfl
  | cons v rest ih =>
    simp only [sendPass]
    by_cases h : fails v d = true
    · simp [h, attempts_cons, ih]
    · simp only [Bool.not_eq_true] at h
      simp [h, attempts_cons, ih]

theorem attempts_removals (ds : List Viewer) :
    attempts (ds.map LoopEffect.removeViewer) = [] := by
  induction ds with
  | nil => rfl
  | cons a ds ih => simp [attempts_cons, ih]

theorem receivedBy_cons (v : Viewer) (e : LoopEffect) (log : List LoopEffect) :
    receivedBy v (e :: log) =
      (match e with
       | LoopEffect.send w d => if w == v then [d] else []
       | _ => []) ++ receivedBy v log := by
  cases e with
  | send w d =>
    by_cases h : w = v
    · subst h; simp [receivedBy, List.filterMap_cons]
    · simp [receivedBy, List.filterMap_cons, h]
  | sendFailed w d => simp [receivedBy, List.filterMap_cons]
  | removeViewer w => simp [receivedBy, List.filterMap_cons]
  | cacheWrite dev d => simp [receivedBy, List.filterMap_cons]
  | sinkWrite d => simp [receivedBy, List.filterMap_cons]

theorem receivedBy_append (v : Viewer) (l1 l2 : List LoopEffect) :
    receivedBy v (l1 ++ l2) = receivedBy v l1 ++ receivedBy v l2 := by
  simp [receivedBy, List.filterMap_append]

theorem receivedBy_removals (v : Viewer) (ds : List Viewer) :
    receivedBy v (ds.map LoopEffect.removeViewer) = [] := by
  induction ds with
  | nil => rfl
  | cons a ds ih => simp [receivedBy, List.filterMap_cons, ih]

theorem receivedBy_sendPass_not_mem (fails : Viewer → OutData → Bool)
    (d : OutData) (vs : List Viewer) (v : Viewer) (hv : v ∉ vs) :
    receivedBy v (sendPass fails d vs).1 = [] := by
  induction vs with
  | nil => rfl
  | cons w rest ih =>
    have hne : w ≠ v := by
      intro h; exact hv (h ▸ List.mem_cons_self w rest)
    have hv' : v ∉ rest := fun h => hv (List.mem_cons_of_mem w h)
    simp only [sendPass]
    by_cases h : fails w d = true
    · simp [h, receivedBy_cons, ih hv']
    · simp only [Bool.not_eq_true] at h
      simp [h, receivedBy_cons, hne, ih hv']

theorem receivedBy_sendPass (fails : Viewer → OutData → Bool) (d : OutData)
    (vs : List Viewer) (v : Viewer) (hnd : vs.Nodup) (hv : v ∈ vs)
    (hok : fails v d = false) :
    receivedBy v (sendPass fails d vs).1 = [d] := by
  induction vs with
  | nil => cases hv
  | cons w rest ih =>
    rcases List.nodup_cons.mp hnd with ⟨hw, hrest⟩
    rcases List.mem_cons.mp hv with h | h
    · subst h
      simp only [sendPass, hok]
      simp [receivedBy_cons, receivedBy_sendPass_not_mem fails d rest v hw]
    · have hne : w ≠ v := by
        intro he; exact hw (he ▸ h)
      simp only [sendPass]
      by_cases hf : fails w d = true
      · simp [hf, receivedBy_cons, ih hrest h]
      · simp only [Bool.not_eq_true] at hf
        simp [hf, receivedBy_cons, hne, ih hrest h]

theorem receivedBy_broadcastStep (fails : Viewer → OutData → Bool)
    (viewers : List Viewer) (d : OutData) (v : Viewer) (hnd : viewers.Nodup)
    (hv : v ∈ viewers) (hok : fails v d = false) :
    receivedBy v (broadcastStep fails viewers d).1 = [d] := by
  simp only [broadcastStep, receivedBy_append, receivedBy_removals,
    receivedBy_sendPass fails d viewers v hnd hv hok, List.append_nil]

theorem mem_sendPass (fails : Viewer → OutData → Bool) (d : OutData)
    (vs : List Viewer) (e : LoopEffect) (he : e ∈ (sendPass fails d vs).1) :
    ∃ v, e = LoopEffect.send v d ∨ e = LoopEffect.sendFailed v d := by
  induction vs with
  | nil => cases he
  | cons w rest ih =>
    simp only [sendPass] at he
    by_cases h : fails w d = true
    · simp only [h, if_true] at he
      rcases List.mem_cons.mp he with h' | h'
      · exact ⟨w, Or.inr h'⟩
      · exact ih h'
    · simp only [Bool.not_eq_true] at h
      simp only [h, Bool.false_eq_true, if_false] at he
      rcases List.mem_cons.mp he with h' | h'
      · exact ⟨w, Or.inl h'⟩
      · exact ih h'

theorem mem_broadcastStep (fails : Viewer → OutData → Bool)
    (viewers : List Viewer) (d : OutData) (e : LoopEffect)
    (he : e ∈ (broadcastStep fails viewers d).1) :
    ∃ v, e = LoopEffect.send v d ∨ e = LoopEffect.sendFailed v d ∨
      e = LoopEffect.removeViewer v := by
  simp only [broadcastStep, List.mem_append] at he
  rcases he with h | h
  · rcases mem_sendPass fails d viewers e h with ⟨v, h'⟩
    exact ⟨v, h'.imp id Or.inl⟩
  · rcases List.mem_map.mp h with ⟨v, _, h'⟩
    exact ⟨v, Or.inr (Or.inr h'.symm)⟩

theorem mem_broadcast_positions (fails : Viewer → OutData → Bool)
    (viewers : List Viewer) (samples : List OutData) (e : LoopEffect)
    (he : e ∈ (broadcast_positions fails viewers samples).1) :
    ∃ v d, e = LoopEffect.send v d ∨ e = LoopEffect.sendFailed v d ∨
      e = LoopEffect.removeViewer v := by
  induction samples generalizing viewers with
  | nil => cases he
  | cons d rest ih =>
    simp only [broadcast_positions, List.mem_append] at he
    rcases he with h | h
    · rcases mem_broadcastStep fails viewers d e h with ⟨v, h'⟩
      exact ⟨v, d, h'⟩
    · exact ih _ h

theorem broadcast_positions_fifo (fails : Viewer → OutData → Bool)
    (viewers : List Viewer) (samples : List OutData) (v : Viewer)
    (hnd : viewers.Nodup) (hv : v ∈ viewers)
    (hok : ∀ d ∈ samples, fails v d = false) :
    receivedBy v (broadcast_positions fails viewers samples).1 = samples := by
  induction samples generalizing viewers with
  | nil => rfl
  | cons d rest ih =>
    have hd : fails v d = false := hok d (List.mem_cons_self d rest)
    simp only [broadcast_positions, receivedBy_append,
      receivedBy_broadcastStep fails viewers d v hnd hv hd]
    have hnd' : (broadcastStep fails viewers d).2.Nodup := by
      rw [broadcastStep_viewers]; exact hnd.filter _
    have hv' : v ∈ (broadcastStep fails viewers d).2 := by
      rw [broadcastStep_viewers]
      exact List.mem_filter.mpr ⟨hv, by simp [hd]⟩
    rw [ih _ hnd' hv' (fun d' hd' => hok d' (List.mem_cons_of_mem d hd'))]
    rfl

/-! ## Helper lemmas about the decoder -/

theorem rejectable_decode (reg : List (String × String)) (topic : String)
    (payload : Option Json) (h : rejectable reg topic payload) :
    decodeSample reg topic payload = Except.ok none ∨
      decodeSample reg topic payload = Except.error PyErr.attributeError := by
  cases payload with
  | none => left; rfl
  | some p =>
    cases p with
    | null => right; rfl
    | bool b => right; rfl
    | num q => right; rfl
    | str s => right; rfl
    | arr elems => right; rfl
    | obj fields =>
      left
      cases hx : pyGetAttr fields "x" with
      | none => simp [decodeSample, hx]
      | some xv =>
        cases hy : pyGetAttr fields "y" with
        | none => simp [decodeSample, hx, hy]
        | some yv =>
          rcases h with h | ⟨fields', hf, hxy⟩ | h | h
          · cases h
          · have : fields' = fields := by
              injection hf with hf'
              injection hf' with hf''
              exact hf''.symm
            subst this
            rcases hxy with hxy | hxy
            · rw [hx] at hxy; cases hxy
            · rw [hy] at hxy; cases hxy
          · simp [decodeSample, hx, hy, h]
          · by_cases hlen : (pySplit topic '/').length < 4
            · simp [decodeSample, hx, hy, hlen]
            · rw [List.getD_eq_getElem?_getD] at h
              simp [decodeSample, hx, hy, hlen, h]

/-! ## The claims -/

/-- C1. The claim says that an accepted viewer is first sent one replay
message per device in the LastPositionCache and then inserted into the
active-viewer set.  The code has no last-position cache: the connection phase
of `ws_positions` (src/main.py lines 107-110) sends no replay message at all
— its effect trace contains no replay — and simply inserts the viewer into
`ws_clients`. -/
theorem ws_positions_connect_no_replay (viewers : List Viewer) (v : Viewer) :
    (ws_positions_connect viewers v).1.filter isReplayEff = []
  ∧ v ∈ (ws_positions_connect viewers v).2 := by
  constructor
  · rfl
  · by_cases h : v ∈ viewers <;> simp [ws_positions_connect, pySetAdd, h]

/-- C2. The claim says the fan-out loop's first action on a dequeued sample
is to overwrite `LastPositionCache[sample.device_id]`.  The code maintains no
such cache: over any run of `broadcast_positions` (src/main.py lines 59-71),
on any queue contents, the loop's effect trace contains no cache write
whatsoever. -/
theorem broadcast_positions_no_cache_write (fails : Viewer → OutData → Bool)
    (viewers : List Viewer) (samples : List OutData) :
    (broadcast_positions fails viewers samples).1.filter isCacheWriteEff = [] := by
  rw [List.filter_eq_nil_iff]
  intro e he
  rcases mem_broadcast_positions fails viewers samples e he with ⟨v, d, h | h | h⟩ <;>
    subst h <;> simp [isCacheWriteEff]

/-- C3. The claim says `Sink.write_position` is invoked for every sample the
fan-out loop processes.  The code's loop (src/main.py lines 59-71) never
touches a persistence sink — src/main.py does not even import src/tsdb.py —
so over any run of `broadcast_positions` the effect trace contains no sink
write. -/
theorem broadcast_positions_no_sink_write (fails : Viewer → OutData → Bool)
    (viewers : List Viewer) (samples : List OutData) :
    (broadcast_positions fails viewers samples).1.filter isSinkWriteEff = [] := by
  rw [List.filter_eq_nil_iff]
  intro e he
  rcases mem_broadcast_positions fails viewers samples e he with ⟨v, d, h | h | h⟩ <;>
    subst h <;> simp [isSinkWriteEff]

/-- C4. With no persistence backend configured the heatmap query endpoint
succeeds and returns exactly `{bins: [], cell_size: 0.5}`: both with an
absent backend handle (as the repository's own test exercises) and with the
Noop fallback that `create_tsdb_from_env` produces on an empty environment,
the response is `⟨[], 1/2⟩`, never an error. -/
theorem heatmap_endpoint_no_backend (influx_bins : List HeatmapBin) :
    heatmap_endpoint none influx_bins (1 / 2) = ⟨[], 1 / 2⟩
  ∧ heatmap_endpoint (some TSDB.noop) influx_bins (1 / 2) = ⟨[], 1 / 2⟩
  ∧ create_tsdb_from_env [] = Except.ok TSDB.noop :=
  ⟨rfl, rfl, rfl⟩

/-- C5, counterexample. The claim says a message whose decoded payload lacks
numeric `x` or `y` fields yields no sample.  The code only checks that
`payload.get("x")` and `payload.get("y")` are not `None`: for a registered
device, a payload whose `x` is the string `"not-a-number"` (so it has no
numeric `x`) is accepted and the sample is enqueued. -/
theorem decoder_accepts_non_numeric_xy :
    on_mqtt_message [("cat1", "Mittens")] "espresense/companion/cat1/attributes"
      (some (Json.obj [("x", Json.str "not-a-number"), ("y", Json.num 1)])) true
    = Except.ok (some ⟨"cat1", "Mittens", Json.str "not-a-number", Json.num 1⟩) :=
  rfl

/-- C5, amended. For every raw bus message whose payload fails to decode or
parse, or whose decoded object payload lacks an `x` or `y` field (absent or
JSON null — numeric-ness is not checked), or whose topic splits into fewer
than 4 segments on `/`, or whose device id (topic segment index 2) is absent
from the DeviceRegistry, no item is placed on the Dispatcher queue. -/
theorem decoder_rejections_yield_nothing (reg : List (String × String))
    (topic : String) (payload : Option Json) (loopSet : Bool)
    (h : rejectable reg topic payload) :
    enqueues (on_mqtt_message reg topic payload loopSet) = none := by
  rcases rejectable_decode reg topic payload h with hd | hd <;>
    simp [on_mqtt_message, hd, enqueues]

/-- C5, witness: a well-formed payload on a topic whose device id `doge` is
not in the registry is rejected and enqueues nothing. -/
theorem decoder_rejections_yield_nothing_witness :
    rejectable [("cat1", "Mittens")] "espresense/companion/doge/attributes"
      (some (Json.obj [("x", Json.num 1), ("y", Json.num 2)]))
  ∧ enqueues (on_mqtt_message [("cat1", "Mittens")]
      "espresense/companion/doge/attributes"
      (some (Json.obj [("x", Json.num 1), ("y", Json.num 2)])) true) = none :=
  ⟨Or.inr (Or.inr (Or.inr (by decide))),
    decoder_rejections_yield_nothing [("cat1", "Mittens")]
      "espresense/companion/doge/attributes"
      (some (Json.obj [("x", Json.num 1), ("y", Json.num 2)])) true
      (Or.inr (Or.inr (Or.inr (by decide))))⟩

/-- C6. The claim says the decode step terminates normally on every payload,
including valid JSON that is not an object.  It does not: on the payload
`42` (valid JSON, not an object) `payload.get("x")` raises `AttributeError`,
which no `except` clause of `on_mqtt_message` catches. -/
theorem decoder_raises_on_non_object_payload :
    on_mqtt_message [("cat1", "Mittens")] "espresense/companion/cat1/attributes"
      (some (Json.num 42)) true = Except.error PyErr.attributeError :=
  rfl

/-- C7. During one broadcast pass a delivery is attempted to every viewer of
the snapshot, in order, whatever failures occur (conjunct 1); after the pass
exactly the viewers whose delivery failed have been removed, so the surviving
set is the snapshot filtered to the non-failing viewers (conjunct 2); and the
removal is idempotent (conjunct 3). -/
theorem broadcast_delivery_isolation (fails : Viewer → OutData → Bool)
    (viewers : List Viewer) (d : OutData) :
    attempts (broadcastStep fails viewers d).1 = viewers
  ∧ (broadcastStep fails viewers d).2 = viewers.filter (fun v => !(fails v d))
  ∧ ∀ s v, pySetDiscard (pySetDiscard s v) v = pySetDiscard s v := by
  refine ⟨?_, broadcastStep_viewers fails viewers d, ?_⟩
  · simp [broadcastStep, attempts_append, attempts_sendPass, attempts_removals]
  · intro s v
    simp [pySetDiscard, List.filter_filter, Bool.and_self]

/-- C8. Samples queued on the dispatcher are processed by the fan-out loop in
exact enqueue (FIFO) order, and every viewer that is connected at the start
and whose deliveries all succeed receives exactly that sequence, in that
order. -/
theorem broadcast_positions_fifo_order (fails : Viewer → OutData → Bool)
    (viewers : List Viewer) (samples : List OutData) (v : Viewer)
    (hnd : viewers.Nodup) (hv : v ∈ viewers)
    (hok : ∀ d ∈ samples, fails v d = false) :
    receivedBy v (broadcast_positions fails viewers samples).1 = samples :=
  broadcast_positions_fifo fails viewers samples v hnd hv hok

/-- C8, witness: two queued samples reach viewer `0` of the set `{0, 1}` in
enqueue order when no delivery fails. -/
theorem broadcast_positions_fifo_order_witness :
    ([0, 1] : List Viewer).Nodup ∧ (0 : Viewer) ∈ ([0, 1] : List Viewer)
  ∧ receivedBy 0 (broadcast_positions (fun _ _ => false) [0, 1]
      [⟨"cat1", "Mittens", Json.num 1, Json.num 2⟩,
       ⟨"cat2", "Whiskers", Json.num 3, Json.num 4⟩]).1
    = [⟨"cat1", "Mittens", Json.num 1, Json.num 2⟩,
       ⟨"cat2", "Whiskers", Json.num 3, Json.num 4⟩] :=
  ⟨by decide, by decide,
    broadcast_positions_fifo_order (fun _ _ => false) [0, 1]
      [⟨"cat1", "Mittens", Json.num 1, Json.num 2⟩,
       ⟨"cat2", "Whiskers", Json.num 3, Json.num 4⟩] 0
      (by decide) (by decide) (fun _ _ => rfl)⟩

/-- C9, counterexample. The claim says construction fails only when host or
database is missing.  With the selector set, host and database both present
but `TSDB_PORT` set to `"abc"`, `int()` raises `ValueError` and construction
fails anyway. -/
theorem create_tsdb_fails_on_unparsable_port :
    isErr (create_tsdb_from_env [("TSDB_TYPE", "influx"), ("TSDB_HOST", "db.local"),
      ("TSDB_DATABASE", "cats"), ("TSDB_PORT", "abc")]) = true
  ∧ envGet [("TSDB_TYPE", "influx"), ("TSDB_HOST", "db.local"),
      ("TSDB_DATABASE", "cats"), ("TSDB_PORT", "abc")] "TSDB_HOST" = some "db.local"
  ∧ envGet [("TSDB_TYPE", "influx"), ("TSDB_HOST", "db.local"),
      ("TSDB_DATABASE", "cats"), ("TSDB_PORT", "abc")] "TSDB_DATABASE" = some "cats" :=
  ⟨rfl, rfl, rfl⟩

/-- C9, amended. Backend selection returns the Influx variant exactly when
the (case-folded) selector names it; when unset or unrecognized it returns
Noop and never fails; when Influx is selected, construction fails when host
or database is missing OR when the port override is present but not a valid
integer literal, and otherwise succeeds with the port defaulting to 8181. -/
theorem create_tsdb_from_env_spec (env : List (String × String)) :
    (tsdbSelector env ≠ "influx" → create_tsdb_from_env env = Except.ok TSDB.noop)
  ∧ (tsdbSelector env = "influx" → envGet env "TSDB_HOST" = none →
      isErr (create_tsdb_from_env env) = true)
  ∧ (tsdbSelector env = "influx" → envGet env "TSDB_DATABASE" = none →
      isErr (create_tsdb_from_env env) = true)
  ∧ (∀ ps, tsdbSelector env = "influx" → envGet env "TSDB_PORT" = some ps →
      pyParseInt ps = none → isErr (create_tsdb_from_env env) = true)
  ∧ (∀ host database port, tsdbSelector env = "influx" →
      envGet env "TSDB_HOST" = some host →
      envGet env "TSDB_DATABASE" = some database →
      pyParseInt ((envGet env "TSDB_PORT").getD "8181") = some port →
      create_tsdb_from_env env =
        Except.ok (TSDB.influx host port database (envGet env "TSDB_TOKEN")))
  ∧ (∀ host database, tsdbSelector env = "influx" →
      envGet env "TSDB_HOST" = some host →
      envGet env "TSDB_DATABASE" = some database →
      envGet env "TSDB_PORT" = none →
      create_tsdb_from_env env =
        Except.ok (TSDB.influx host 8181 database (envGet env "TSDB_TOKEN"))) := by
  refine ⟨?_, ?_, ?_, ?_, ?_, ?_⟩
  · intro hsel
    simp [create_tsdb_from_env, hsel]
  · intro hsel hhost
    simp [create_tsdb_from_env, hsel, hhost, isErr]
  · intro hsel hdb
    simp only [create_tsdb_from_env, hsel, if_true]
    cases hhost : envGet env "TSDB_HOST" with
    | none => rfl
    | some host =>
      cases hport : pyParseInt ((envGet env "TSDB_PORT").getD "8181") with
      | none => rfl
      | some port => simp [hdb, isErr]
  · intro ps hsel hps hbad
    simp only [create_tsdb_from_env, hsel, if_true]
    cases hhost : envGet env "TSDB_HOST" with
    | none => rfl
    | some host => simp [hps, hbad, isErr]
  · intro host database port hsel hhost hdb hport
    simp [create_tsdb_from_env, hsel, hhost, hdb, hport]
  · intro host database hsel hhost hdb hport
    have h8181 : pyParseInt ((envGet env "TSDB_PORT").getD "8181") = some 8181 := by
      rw [hport]; rfl
    simp [create_tsdb_from_env, hsel, hhost, hdb, h8181]

/-- C9, witness: selector `INFLUX` (case-folded), host and database present,
no port override: construction succeeds with the default port 8181. -/
theorem create_tsdb_from_env_spec_witness :
    create_tsdb_from_env [("TSDB_TYPE", "INFLUX"), ("TSDB_HOST", "db.local"),
      ("TSDB_DATABASE", "cats")]
    = Except.ok (TSDB.influx "db.local" 8181 "cats" none) :=
  (create_tsdb_from_env_spec [("TSDB_TYPE", "INFLUX"), ("TSDB_HOST", "db.local"),
      ("TSDB_DATABASE", "cats")]).2.2.2.2.2 "db.local" "cats"
    (by decide) rfl rfl rfl

/-- C10. A message that decodes to a valid sample while the broadcast event
loop reference is still unset (`mqtt_loop is None`) is silently dropped: the
handler returns normally without enqueuing anything on the dispatcher. -/
theorem on_mqtt_message_drops_before_loop (reg : List (String × String))
    (topic : String) (payload : Option Json) (d : OutData)
    (h : on_mqtt_message reg topic payload true = Except.ok (some d)) :
    on_mqtt_message reg topic payload false = Except.ok none := by
  cases hd : decodeSample reg topic payload with
  | error e => simp [on_mqtt_message, hd] at h
  | ok r =>
    cases r with
    | none => simp [on_mqtt_message, hd] at h
    | some d' => simp [on_mqtt_message, hd]

/-- C10, witness: a valid sample for registered device `cat1` is enqueued
when the loop reference is set and silently dropped when it is not. -/
theorem on_mqtt_message_drops_before_loop_witness :
    on_mqtt_message [("cat1", "Mittens")] "espresense/companion/cat1/attributes"
      (some (Json.obj [("x", Json.num 2.5), ("y", Json.num 3)])) true
      = Except.ok (some ⟨"cat1", "Mittens", Json.num 2.5, Json.num 3⟩)
  ∧ on_mqtt_message [("cat1", "Mittens")] "espresense/companion/cat1/attributes"
      (some (Json.obj [("x", Json.num 2.5), ("y", Json.num 3)])) false
      = Except.ok none :=
  ⟨rfl, on_mqtt_message_drops_before_loop [("cat1", "Mittens")]
    "espresense/companion/cat1/attributes"
    (some (Json.obj [("x", Json.num 2.5), ("y", Json.num 3)]))
    ⟨"cat1", "Mittens", Json.num 2.5, Json.num 3⟩ rfl⟩

end CatGps
